import Mathlib

/-!
A shallow embedding of `src/plotting_utils.py` (the `Plotting` class, a thin
wrapper over matplotlib / pandas / seaborn).

Modelling choices:
* The process-wide matplotlib configuration (`rcParams`) is a record
  `RcParams` holding exactly the parameters the module writes or reads.
* Every method is a pure Lean function that takes the current `RcParams`
  (and, for chart methods, the caller's data table) and returns a
  `CallResult`: the configuration and data table as the caller sees them
  after the call, the ordered list of external-library calls issued
  (`LibCall`), the Python return value, and the exception raised by the
  module's own code, if any.  Failures arising *inside* the external
  library are outside the module and are not part of `CallResult`;
  the embedding records the call the module issues.
* Numeric literals of the source are rationals (`ℚ`).  In
  `plot_colored_sinusoidal_lines`, abscissa values and phase shifts are
  measured in units of `L = 2 * pi`: the rational `q` stands for the real
  number `q * L`.  With that convention `np.linspace(0, L, num, endpoint)`
  is `np_linspace 0 1 num endpoint`, and the recorded call
  `pltPlotSin xs s fmt` stands for `plt.plot(x, np.sin(x + s), fmt)`
  with `x` the samples `xs` (in units of `L`) and `s` the shift.
* Python-level facts about the source text that the spec talks about
  (the keyword introducing `Plotting`, the parameter lists and their
  default values) are transcribed verbatim into string / record form.
-/

/-- The caller's tabular data.  The module never inspects it, so the
representation only needs decidable equality: we keep the column names. -/
structure DataFrame where
  cols : List String
  deriving DecidableEq, Repr

/-- A numeric series passed through (the `size` argument of
`pandas_scatter_plot`). -/
abbrev Series := List ℚ

/-- One call issued to the external charting libraries, with the arguments
the source passes.  `pltShow` is `plt.show()`, the render/display call. -/
inductive LibCall where
  /-- Call `dataframe.hist(bins=..., figsize=...)` -/
  | dfHist (df : DataFrame) (bins : ℕ) (figsize : ℚ × ℚ)
  /-- Call `dataframe.plot(kind="scatter", x=..., y=..., alpha=..., s=...,
      label=..., c=..., cmap=..., colorbar=...)`; `plt.get_cmap("viridis")`
      is the pure colormap lookup, recorded as the string `"viridis"`. -/
  | dfPlotScatter (df : DataFrame) (x y : String) (alpha : ℚ) (s : Series)
      (label : String) (c : String) (cmap : String) (colorbar : Bool)
  /-- Call `pd.plotting.scatter_matrix(dataframe, figsize=..., diagonal=...)` -/
  | pdScatterMatrix (df : DataFrame) (figsize : ℚ × ℚ) (diagonal : String)
  /-- Call `sns.pairplot(dataframe, hue=..., palette=..., kind=..., diag_kind=...,
      height=...)` -/
  | snsPairplot (df : DataFrame) (hue : Option String) (palette : String)
      (kind : String) (diagKind : String) (height : ℚ)
  /-- Call `sns.lineplot(data=..., x=..., y=..., hue=...)` -/
  | snsLineplot (df : DataFrame) (x y hue : Option String)
  /-- Call `sns.boxenplot(data=..., x=..., y=..., hue=..., palette=...)` -/
  | snsBoxenplot (df : DataFrame) (x y hue : Option String) (palette : String)
  /-- Call `sns.barplot(data=..., x=..., y=..., hue=...)` -/
  | snsBarplot (df : DataFrame) (x y hue : Option String)
  /-- Call `sns.heatmap(data2d, annot=..., linewidths=..., fmt=...)` -/
  | snsHeatmap (df : DataFrame) (annot : Bool) (linewidths : ℚ) (fmt : String)
  /-- Call `plt.plot(x, np.sin(x + s), fmt)`: the sine curve with phase shift `s`
      sampled at `xs` (both in units of `L = 2 * pi`). -/
  | pltPlotSin (xs : List ℚ) (s : ℚ) (fmt : String)
  /-- Call `plt.xlim([lo, hi])` (in units of `L = 2 * pi`) -/
  | xlim (lo hi : ℚ)
  /-- Call `plt.xlabel(s)` -/
  | xlabel (s : String)
  /-- Call `plt.ylabel(s)` -/
  | ylabel (s : String)
  /-- Call `plt.title(s)` -/
  | title (s : String)
  /-- Call `plt.show()`. -/
  | pltShow
  deriving DecidableEq, Repr

/-- Whether a `LibCall` is the one charting call of a chart method
(as opposed to the render call `plt.show` or an axis-decoration call). -/
def LibCall.isChart : LibCall → Bool
  | .dfHist .. => true
  | .dfPlotScatter .. => true
  | .pdScatterMatrix .. => true
  | .snsPairplot .. => true
  | .snsLineplot .. => true
  | .snsBoxenplot .. => true
  | .snsBarplot .. => true
  | .snsHeatmap .. => true
  | _ => false

/-- Whether a `LibCall` is the render/display call `plt.show()`. -/
def LibCall.isShow : LibCall → Bool
  | .pltShow => true
  | _ => false

/-- An exception raised by the module's own code (not by the external
library).  The only one possible is the `KeyError` of the dictionary
lookup in `sns_heatmap`. -/
inductive PyErr where
  | keyError (key : String)
  deriving DecidableEq, Repr

/-- A Python return value, as far as this module is concerned. -/
inductive PyVal where
  | pyNone
  | pyStr (s : String)
  deriving DecidableEq, Repr

/-- The process-wide matplotlib configuration, restricted to the entries
this module writes (in `__init__`) or reads (`axes.prop_cycle` in
`plot_colored_sinusoidal_lines`). -/
structure RcParams where
  /-- Entry `lines.linewidth`. -/
  lines_linewidth : ℚ
  /-- Entry `axes.titlesize`. -/
  axes_titlesize : ℚ
  /-- Entry `axes.labelsize`. -/
  axes_labelsize : ℚ
  /-- Entry `axes.linewidth`. -/
  axes_linewidth : ℚ
  /-- Entry `axes.edgecolor`. -/
  axes_edgecolor : String
  /-- Entry `axes.prop_cycle`: the color cycle, as the list of its colors -/
  axes_prop_cycle : List String
  /-- Entry `xtick.labelsize`. -/
  xtick_labelsize : ℚ
  /-- Entry `ytick.labelsize`. -/
  ytick_labelsize : ℚ
  /-- Entry `xtick.major.size`. -/
  xtick_major_size : ℚ
  /-- Entry `ytick.major.size`. -/
  ytick_major_size : ℚ
  /-- Entry `font.family`. -/
  font_family : String
  /-- Entry `font.sans-serif`. -/
  font_sans_serif : List String
  /-- Entry `font.size`. -/
  font_size : ℚ
  /-- Entry `mathtext.fontset`. -/
  mathtext_fontset : String
  deriving DecidableEq, Repr

/-- What a method call leaves behind, from the caller's point of view. -/
structure CallResult where
  /-- the process-wide configuration after the call -/
  rc : RcParams
  /-- the caller's data table after the call (`none` for methods that take
      no table) -/
  df : Option DataFrame
  /-- the external-library calls issued, in order -/
  calls : List LibCall
  /-- the Python return value -/
  ret : PyVal
  /-- the exception raised by the module's own code, if any -/
  exn : Option PyErr
  deriving DecidableEq, Repr

/-- The settings of matplotlib's built-in `seaborn` style sheet
(`stylelib/seaborn.mplstyle`, external to this repository), restricted to
the `RcParams` entries modelled here; applied by `plt.style.use('seaborn')`. -/
def style_use_seaborn (rc : RcParams) : RcParams :=
  { rc with
    lines_linewidth := 1.75
    axes_titlesize := 12
    axes_labelsize := 11
    axes_linewidth := 0
    axes_edgecolor := "white"
    axes_prop_cycle := ["4C72B0", "55A868", "C44E52", "8172B2", "CCB974", "64B5CD"]
    xtick_labelsize := 10
    ytick_labelsize := 10
    xtick_major_size := 0
    ytick_major_size := 0
    font_family := "sans-serif"
    font_sans_serif := ["Arial", "Liberation Sans", "Bitstream Vera Sans", "sans-serif"] }

namespace Plotting

/-- Method `Plotting.__init__`: sets the style preferences onto the process-wide
configuration.  `plt.style.use('seaborn')`, then the `mpl.rc` calls, in
source order. -/
def init (rc : RcParams) : RcParams :=
  let font_size : ℚ := 14
  let label_size : ℚ := 18
  let tick_size : ℚ := 12
  let rc := style_use_seaborn rc
  let rc := { rc with lines_linewidth := 3.0 }
  let rc := { rc with
    axes_titlesize := label_size
    axes_labelsize := label_size
    axes_linewidth := 0.8
    axes_edgecolor := "0.25" }
  let rc := { rc with xtick_labelsize := tick_size }
  let rc := { rc with ytick_labelsize := tick_size }
  let rc := { rc with xtick_major_size := 3.0 }
  let rc := { rc with ytick_major_size := 3.0 }
  let rc := { rc with
    font_family := "sans-serif"
    font_sans_serif := ["CMU Sans Serif"]
    font_size := font_size }
  { rc with mathtext_fontset := "cm" }

/-- Numpy `np.linspace(start, stop, num, endpoint)` over `ℚ` (numpy defaults:
`num=50`, `endpoint=True`). -/
def np_linspace (start stop : ℚ) (num : ℕ := 50) (endpoint : Bool := true) :
    List ℚ :=
  if endpoint then
    (List.range num).map
      (fun i : ℕ => start + (stop - start) * (i : ℚ) / ((num : ℚ) - 1))
  else
    (List.range num).map
      (fun i : ℕ => start + (stop - start) * (i : ℚ) / (num : ℚ))

/-- Method `Plotting.plot_colored_sinusoidal_lines`: one shifted sine curve per
color of the active color cycle.  All abscissa values are in units of
`L = 2 * pi` (so `1` stands for `2 * pi`). -/
def plot_colored_sinusoidal_lines (rc : RcParams) : CallResult :=
  let L : ℚ := 1
  let x := np_linspace 0 L
  let nb_colors := rc.axes_prop_cycle.length
  let shift := np_linspace 0 L nb_colors false
  { rc := rc
    df := none
    calls := shift.map (fun s => LibCall.pltPlotSin x s "-")
      ++ [LibCall.xlim (x.headD 0) (x.getLastD 0),
          LibCall.xlabel "$x$", LibCall.ylabel "$\\sin(x)$",
          LibCall.title "Shifted sine plots", LibCall.pltShow]
    ret := .pyNone
    exn := none }

/-- Method `Plotting.pandas_histogram`. -/
def pandas_histogram (rc : RcParams) (dataframe : DataFrame)
    (fig_size : ℚ × ℚ := (20, 20)) : CallResult :=
  { rc := rc
    df := some dataframe
    calls := [LibCall.dfHist dataframe 50 fig_size, LibCall.pltShow]
    ret := .pyNone
    exn := none }

/-- Method `Plotting.pandas_scatter_plot`. -/
def pandas_scatter_plot (rc : RcParams) (dataframe : DataFrame)
    (x_series y_series : String) (size : Series) (size_label color : String) :
    CallResult :=
  { rc := rc
    df := some dataframe
    calls := [LibCall.dfPlotScatter dataframe x_series y_series 0.4 size
                size_label color "viridis" true,
              LibCall.pltShow]
    ret := .pyNone
    exn := none }

/-- Method `Plotting.pandas_scatter_matrix`. -/
def pandas_scatter_matrix (rc : RcParams) (dataframe : DataFrame)
    (fig_size : ℚ × ℚ := (12, 12)) : CallResult :=
  { rc := rc
    df := some dataframe
    calls := [LibCall.pdScatterMatrix dataframe fig_size "kde", LibCall.pltShow]
    ret := .pyNone
    exn := none }

/-- Method `Plotting.sns_scatter_matrix`. -/
def sns_scatter_matrix (rc : RcParams) (dataframe : DataFrame)
    (hue_str : Option String := none) (diag_plt : String := "kde") :
    CallResult :=
  { rc := rc
    df := some dataframe
    calls := [LibCall.snsPairplot dataframe hue_str "viridis" "scatter"
                diag_plt 2.5,
              LibCall.pltShow]
    ret := .pyNone
    exn := none }

/-- Method `Plotting.sns_lineplot`. -/
def sns_lineplot (rc : RcParams) (dataframe : DataFrame)
    (x_name y_name hue_str : Option String := none) : CallResult :=
  { rc := rc
    df := some dataframe
    calls := [LibCall.snsLineplot dataframe x_name y_name hue_str,
              LibCall.pltShow]
    ret := .pyNone
    exn := none }

/-- Method `Plotting.sns_boxenplot`. -/
def sns_boxenplot (rc : RcParams) (dataframe : DataFrame)
    (x_name y_name hue_str : Option String := none) : CallResult :=
  { rc := rc
    df := some dataframe
    calls := [LibCall.snsBoxenplot dataframe x_name y_name hue_str "deep",
              LibCall.pltShow]
    ret := .pyNone
    exn := none }

/-- Method `Plotting.sns_barplot`. -/
def sns_barplot (rc : RcParams) (dataframe : DataFrame)
    (x_name y_name hue_str : Option String := none) : CallResult :=
  { rc := rc
    df := some dataframe
    calls := [LibCall.snsBarplot dataframe x_name y_name hue_str,
              LibCall.pltShow]
    ret := .pyNone
    exn := none }

/-- The local dictionary `data_string = {'int':'d','float':'0.1f'}` of
`sns_heatmap`, as an association list. -/
def data_string : List (String × String) := [("int", "d"), ("float", "0.1f")]

/-- Method `Plotting.sns_heatmap`.  The subscript `data_string[data_type]` is a
dictionary lookup in the module's own code: on a missing key it raises
`KeyError` before `sns.heatmap` is called. -/
def sns_heatmap (rc : RcParams) (data2d : DataFrame) (data_type : String) :
    CallResult :=
  match (data_string.lookup data_type) with
  | some fmt =>
      { rc := rc
        df := some data2d
        calls := [LibCall.snsHeatmap data2d true 0.5 fmt, LibCall.pltShow]
        ret := .pyNone
        exn := none }
  | none =>
      { rc := rc
        df := some data2d
        calls := []
        ret := .pyNone
        exn := some (PyErr.keyError data_type) }

/-- A formal parameter of a Python method (excluding `self`): its name and,
when it has one, the source text of its default value. -/
structure PyParam where
  name : String
  /-- source text of the default value; `none` when the parameter is
      required -/
  dflt : Option String
  deriving DecidableEq, Repr

/-- Whether the named parameter exists and has a default value (is
optional). -/
def PyParam.optionalIn (ps : List PyParam) (n : String) : Bool :=
  ps.any (fun p => p.name == n && p.dflt.isSome)

/-- Whether the named parameter exists and is required (no default). -/
def PyParam.requiredIn (ps : List PyParam) (n : String) : Bool :=
  ps.any (fun p => p.name == n && p.dflt.isNone)

/-- Parameter list of `pandas_histogram` (source line 114). -/
def pandas_histogram_params : List PyParam :=
  [⟨"dataframe", none⟩, ⟨"fig_size", some "(20,20)"⟩]

/-- Parameter list of `pandas_scatter_plot` (source lines 132 to 133). -/
def pandas_scatter_plot_params : List PyParam :=
  [⟨"dataframe", none⟩, ⟨"x_series", none⟩, ⟨"y_series", none⟩,
   ⟨"size", none⟩, ⟨"size_label", none⟩, ⟨"color", none⟩]

/-- Parameter list of `pandas_scatter_matrix` (source line 164). -/
def pandas_scatter_matrix_params : List PyParam :=
  [⟨"dataframe", none⟩, ⟨"fig_size", some "(12,12)"⟩]

/-- Parameter list of `sns_scatter_matrix` (source line 185). -/
def sns_scatter_matrix_params : List PyParam :=
  [⟨"dataframe", none⟩, ⟨"hue_str", some "None"⟩, ⟨"diag_plt", some "'kde'"⟩]

/-- Parameter list of `sns_lineplot` (source line 216). -/
def sns_lineplot_params : List PyParam :=
  [⟨"dataframe", none⟩, ⟨"x_name", some "None"⟩, ⟨"y_name", some "None"⟩,
   ⟨"hue_str", some "None"⟩]

/-- Parameter list of `sns_boxenplot` (source line 245). -/
def sns_boxenplot_params : List PyParam :=
  [⟨"dataframe", none⟩, ⟨"x_name", some "None"⟩, ⟨"y_name", some "None"⟩,
   ⟨"hue_str", some "None"⟩]

/-- Parameter list of `sns_barplot` (source line 274). -/
def sns_barplot_params : List PyParam :=
  [⟨"dataframe", none⟩, ⟨"x_name", some "None"⟩, ⟨"y_name", some "None"⟩,
   ⟨"hue_str", some "None"⟩]

/-- Parameter list of `sns_heatmap` (source line 301). -/
def sns_heatmap_params : List PyParam :=
  [⟨"data2d", none⟩, ⟨"data_type", none⟩]

/-- Source line 33 of `src/plotting_utils.py`, the header introducing the
`Plotting` wrapper, transcribed verbatim. -/
def plotting_header_line : String := "class Plotting(object):"

/-- The keyword that introduces the `Plotting` wrapper: the first word of
`plotting_header_line`. -/
def plotting_def_keyword : String :=
  String.mk (plotting_header_line.data.takeWhile (fun c => c ≠ ' '))

end Plotting

/-- Number of charting-library chart calls in a trace. -/
def chartCallCount (cs : List LibCall) : ℕ :=
  (cs.filter LibCall.isChart).length

/-- Number of render/display calls (`plt.show`) in a trace. -/
def showCallCount (cs : List LibCall) : ℕ :=
  (cs.filter LibCall.isShow).length

/-- The phase shifts of the sine curves drawn in a trace, in order. -/
def sinShifts (cs : List LibCall) : List ℚ :=
  cs.filterMap (fun c => match c with
    | .pltPlotSin _ s _ => some s
    | _ => none)

/-- The `plt.xlim` calls of a trace, in order. -/
def xlimCalls (cs : List LibCall) : List (ℚ × ℚ) :=
  cs.filterMap (fun c => match c with
    | .xlim lo hi => some (lo, hi)
    | _ => none)

/-- A concrete configuration used by closed witness statements. -/
def rc0 : RcParams :=
  { lines_linewidth := 1
    axes_titlesize := 1
    axes_labelsize := 1
    axes_linewidth := 1
    axes_edgecolor := "black"
    axes_prop_cycle := ["b", "g", "r"]
    xtick_labelsize := 1
    ytick_labelsize := 1
    xtick_major_size := 1
    ytick_major_size := 1
    font_family := "serif"
    font_sans_serif := []
    font_size := 10
    mathtext_fontset := "dejavusans" }

/-- A concrete data table used by closed witness statements. -/
def df0 : DataFrame := ⟨["a", "b"]⟩


/-! Helper lemmas about `Plotting.np_linspace`. -/

/-- The first sample of `np.linspace(0, L)` is `0` (in units of `L`). -/
theorem Plotting.np_linspace_headD : (Plotting.np_linspace 0 1).headD 0 = 0 := by
  rw [Plotting.np_linspace, if_pos rfl, show (50 : ℕ) = 49 + 1 from rfl,
    List.range_succ_eq_map, List.map_cons]
  simp

/-- The last sample of `np.linspace(0, L)` is `L` (in units of `L`). -/
theorem Plotting.np_linspace_getLastD : (Plotting.np_linspace 0 1).getLastD 0 = 1 := by
  rw [Plotting.np_linspace, if_pos rfl, show (50 : ℕ) = 49 + 1 from rfl,
    List.range_succ, List.map_append, List.map_singleton]
  rw [List.getLastD_concat]
  norm_num

/-- With the endpoint excluded, `np.linspace(0, L, n)` produces the `n`
evenly spaced points `i * L / n`, `i < n` (in units of `L`). -/
theorem Plotting.np_linspace_no_endpoint (n : ℕ) :
    Plotting.np_linspace 0 1 n false = (List.range n).map (fun i : ℕ => (i : ℚ) / n) := by
  unfold Plotting.np_linspace
  simp only [Bool.false_eq_true, if_false]
  refine List.map_congr_left ?_
  intro i _
  ring

/-! The claims. -/

/-- C1, counterexample: the claim says the newest revision introduces the
`Plotting` wrapper with the function-definition keyword `def`; in
`src/plotting_utils.py` line 33 the keyword is `class`, not `def`. -/
theorem C1_counterexample :
    Plotting.plotting_def_keyword ≠ "def" ∧ Plotting.plotting_def_keyword = "class" := by
  constructor <;> decide

/-- C1, amended: the revision of the module under `src` defines the
`Plotting` wrapper with the class-definition keyword `class` (so the module
does not fail to load for the reason the claim gives). -/
theorem C1_amended_thm : Plotting.plotting_def_keyword = "class" := by decide

/-- C2, counterexample: `sns_heatmap` called with `data_type = "str"`
raises a `KeyError` from the module's own dictionary lookup, before any
charting-library call is issued — a failure the module produces itself,
contradicting the claim that every failure comes from the underlying
library. -/
theorem C2_counterexample :
    (Plotting.sns_heatmap rc0 df0 "str").exn = some (PyErr.keyError "str") ∧
    (Plotting.sns_heatmap rc0 df0 "str").calls = [] := by
  constructor <;> rfl

/-- C2, amended: every chart function other than `sns_heatmap` raises no
error of its own on any input (any failure is the library's); `sns_heatmap`
raises no error of its own exactly when `data_type` is `"int"` or
`"float"`, and for any other `data_type` it raises a `KeyError` from its
own dictionary lookup before issuing any charting-library call. -/
theorem C2_amended_thm :
    (∀ rc df fs, (Plotting.pandas_histogram rc df fs).exn = none) ∧
    (∀ rc df x y s lbl c,
      (Plotting.pandas_scatter_plot rc df x y s lbl c).exn = none) ∧
    (∀ rc df fs, (Plotting.pandas_scatter_matrix rc df fs).exn = none) ∧
    (∀ rc df hue diag, (Plotting.sns_scatter_matrix rc df hue diag).exn = none) ∧
    (∀ rc df x y hue, (Plotting.sns_lineplot rc df x y hue).exn = none) ∧
    (∀ rc df x y hue, (Plotting.sns_boxenplot rc df x y hue).exn = none) ∧
    (∀ rc df x y hue, (Plotting.sns_barplot rc df x y hue).exn = none) ∧
    (∀ rc df dt,
      ((Plotting.sns_heatmap rc df dt).exn = none ↔ dt = "int" ∨ dt = "float") ∧
      (dt ≠ "int" → dt ≠ "float" →
        (Plotting.sns_heatmap rc df dt).exn = some (PyErr.keyError dt) ∧
        (Plotting.sns_heatmap rc df dt).calls = [])) := by
  refine ⟨fun _ _ _ => rfl, fun _ _ _ _ _ _ _ => rfl, fun _ _ _ => rfl,
    fun _ _ _ _ => rfl, fun _ _ _ _ _ => rfl, fun _ _ _ _ _ => rfl,
    fun _ _ _ _ _ => rfl, fun rc df dt => ?_⟩
  by_cases h1 : dt = "int"
  · subst h1
    exact ⟨by simp [Plotting.sns_heatmap, Plotting.data_string, List.lookup],
      fun h _ => absurd rfl h⟩
  · by_cases h2 : dt = "float"
    · subst h2
      exact ⟨by simp [Plotting.sns_heatmap, Plotting.data_string, List.lookup],
        fun _ h => absurd rfl h⟩
    · have hbeq1 : (dt == "int") = false := beq_eq_false_iff_ne.mpr h1
      have hbeq2 : (dt == "float") = false := beq_eq_false_iff_ne.mpr h2
      have hlk : Plotting.data_string.lookup dt = none := by
        simp [Plotting.data_string, List.lookup, hbeq1, hbeq2]
      constructor
      · simp [Plotting.sns_heatmap, hlk, h1, h2]
      · intro _ _
        constructor <;> simp [Plotting.sns_heatmap, hlk]

/-- C2, witness: at `data_type = "float"` the amended theorem yields no
module-raised error, and at `data_type = "str"` it yields the `KeyError`
with no library call issued. -/
theorem C2_witness :
    (Plotting.sns_heatmap rc0 df0 "float").exn = none ∧
    (Plotting.sns_heatmap rc0 df0 "str").exn = some (PyErr.keyError "str") := by
  constructor
  · exact ((C2_amended_thm.2.2.2.2.2.2.2 rc0 df0 "float").1).mpr (Or.inr rfl)
  · exact (((C2_amended_thm.2.2.2.2.2.2.2 rc0 df0 "str").2
      (by decide) (by decide))).1

/-- C3, counterexample: `pandas_scatter_plot`'s column selector `x_series`
is a required parameter with no default value, so not every chart
function's column-name selectors are optional. -/
theorem C3_counterexample :
    Plotting.PyParam.optionalIn Plotting.pandas_scatter_plot_params "x_series" = false ∧
    Plotting.PyParam.requiredIn Plotting.pandas_scatter_plot_params "x_series" = true := by
  constructor <;> decide

/-- C3, amended: every chart function accepts a data table (a required
first parameter); the seaborn plot functions take their column-name
selectors as optional parameters with stated defaults, but
`pandas_scatter_plot`'s selectors (`x_series`, `y_series`, `size`,
`size_label`, `color`) and `sns_heatmap`'s `data_type` are required, and
`pandas_histogram` / `pandas_scatter_matrix` take no column selectors at
all, only an optional `fig_size`. -/
theorem C3_amended_thm :
    (Plotting.PyParam.requiredIn Plotting.pandas_histogram_params "dataframe" = true ∧
     Plotting.PyParam.requiredIn Plotting.pandas_scatter_plot_params "dataframe" = true ∧
     Plotting.PyParam.requiredIn Plotting.pandas_scatter_matrix_params "dataframe" = true ∧
     Plotting.PyParam.requiredIn Plotting.sns_scatter_matrix_params "dataframe" = true ∧
     Plotting.PyParam.requiredIn Plotting.sns_lineplot_params "dataframe" = true ∧
     Plotting.PyParam.requiredIn Plotting.sns_boxenplot_params "dataframe" = true ∧
     Plotting.PyParam.requiredIn Plotting.sns_barplot_params "dataframe" = true ∧
     Plotting.PyParam.requiredIn Plotting.sns_heatmap_params "data2d" = true) ∧
    (Plotting.PyParam.optionalIn Plotting.sns_scatter_matrix_params "hue_str" = true ∧
     Plotting.PyParam.optionalIn Plotting.sns_scatter_matrix_params "diag_plt" = true ∧
     Plotting.PyParam.optionalIn Plotting.sns_lineplot_params "x_name" = true ∧
     Plotting.PyParam.optionalIn Plotting.sns_lineplot_params "y_name" = true ∧
     Plotting.PyParam.optionalIn Plotting.sns_lineplot_params "hue_str" = true ∧
     Plotting.PyParam.optionalIn Plotting.sns_boxenplot_params "x_name" = true ∧
     Plotting.PyParam.optionalIn Plotting.sns_boxenplot_params "y_name" = true ∧
     Plotting.PyParam.optionalIn Plotting.sns_boxenplot_params "hue_str" = true ∧
     Plotting.PyParam.optionalIn Plotting.sns_barplot_params "x_name" = true ∧
     Plotting.PyParam.optionalIn Plotting.sns_barplot_params "y_name" = true ∧
     Plotting.PyParam.optionalIn Plotting.sns_barplot_params "hue_str" = true) ∧
    (Plotting.PyParam.requiredIn Plotting.pandas_scatter_plot_params "x_series" = true ∧
     Plotting.PyParam.requiredIn Plotting.pandas_scatter_plot_params "y_series" = true ∧
     Plotting.PyParam.requiredIn Plotting.pandas_scatter_plot_params "size" = true ∧
     Plotting.PyParam.requiredIn Plotting.pandas_scatter_plot_params "size_label" = true ∧
     Plotting.PyParam.requiredIn Plotting.pandas_scatter_plot_params "color" = true ∧
     Plotting.PyParam.requiredIn Plotting.sns_heatmap_params "data_type" = true) ∧
    (Plotting.PyParam.optionalIn Plotting.pandas_histogram_params "fig_size" = true ∧
     Plotting.PyParam.optionalIn Plotting.pandas_scatter_matrix_params "fig_size" = true) := by
  decide

/-- C4: every chart function, on any input the module itself accepts
(for `sns_heatmap` this means `data_type` is `"int"` or `"float"`; the
other functions accept everything — column validity only matters inside
the external library), completes without raising, returns `None`, issues
exactly one charting-library call and exactly one render call
(`plt.show`). -/
theorem C4_thm :
    (∀ rc df fs,
      chartCallCount (Plotting.pandas_histogram rc df fs).calls = 1 ∧
      showCallCount (Plotting.pandas_histogram rc df fs).calls = 1 ∧
      (Plotting.pandas_histogram rc df fs).exn = none ∧
      (Plotting.pandas_histogram rc df fs).ret = PyVal.pyNone) ∧
    (∀ rc df x y s lbl c,
      chartCallCount (Plotting.pandas_scatter_plot rc df x y s lbl c).calls = 1 ∧
      showCallCount (Plotting.pandas_scatter_plot rc df x y s lbl c).calls = 1 ∧
      (Plotting.pandas_scatter_plot rc df x y s lbl c).exn = none ∧
      (Plotting.pandas_scatter_plot rc df x y s lbl c).ret = PyVal.pyNone) ∧
    (∀ rc df fs,
      chartCallCount (Plotting.pandas_scatter_matrix rc df fs).calls = 1 ∧
      showCallCount (Plotting.pandas_scatter_matrix rc df fs).calls = 1 ∧
      (Plotting.pandas_scatter_matrix rc df fs).exn = none ∧
      (Plotting.pandas_scatter_matrix rc df fs).ret = PyVal.pyNone) ∧
    (∀ rc df hue diag,
      chartCallCount (Plotting.sns_scatter_matrix rc df hue diag).calls = 1 ∧
      showCallCount (Plotting.sns_scatter_matrix rc df hue diag).calls = 1 ∧
      (Plotting.sns_scatter_matrix rc df hue diag).exn = none ∧
      (Plotting.sns_scatter_matrix rc df hue diag).ret = PyVal.pyNone) ∧
    (∀ rc df x y hue,
      chartCallCount (Plotting.sns_lineplot rc df x y hue).calls = 1 ∧
      showCallCount (Plotting.sns_lineplot rc df x y hue).calls = 1 ∧
      (Plotting.sns_lineplot rc df x y hue).exn = none ∧
      (Plotting.sns_lineplot rc df x y hue).ret = PyVal.pyNone) ∧
    (∀ rc df x y hue,
      chartCallCount (Plotting.sns_boxenplot rc df x y hue).calls = 1 ∧
      showCallCount (Plotting.sns_boxenplot rc df x y hue).calls = 1 ∧
      (Plotting.sns_boxenplot rc df x y hue).exn = none ∧
      (Plotting.sns_boxenplot rc df x y hue).ret = PyVal.pyNone) ∧
    (∀ rc df x y hue,
      chartCallCount (Plotting.sns_barplot rc df x y hue).calls = 1 ∧
      showCallCount (Plotting.sns_barplot rc df x y hue).calls = 1 ∧
      (Plotting.sns_barplot rc df x y hue).exn = none ∧
      (Plotting.sns_barplot rc df x y hue).ret = PyVal.pyNone) ∧
    (∀ rc df dt, dt = "int" ∨ dt = "float" →
      chartCallCount (Plotting.sns_heatmap rc df dt).calls = 1 ∧
      showCallCount (Plotting.sns_heatmap rc df dt).calls = 1 ∧
      (Plotting.sns_heatmap rc df dt).exn = none ∧
      (Plotting.sns_heatmap rc df dt).ret = PyVal.pyNone) := by
  refine ⟨fun _ _ _ => ⟨rfl, rfl, rfl, rfl⟩,
    fun _ _ _ _ _ _ _ => ⟨rfl, rfl, rfl, rfl⟩,
    fun _ _ _ => ⟨rfl, rfl, rfl, rfl⟩,
    fun _ _ _ _ => ⟨rfl, rfl, rfl, rfl⟩,
    fun _ _ _ _ _ => ⟨rfl, rfl, rfl, rfl⟩,
    fun _ _ _ _ _ => ⟨rfl, rfl, rfl, rfl⟩,
    fun _ _ _ _ _ => ⟨rfl, rfl, rfl, rfl⟩,
    fun rc df dt h => ?_⟩
  rcases h with rfl | rfl <;> exact ⟨rfl, rfl, rfl, rfl⟩

/-- C4, witness: `sns_heatmap` at the valid `data_type = "int"` issues one
chart call and one render call, raises nothing and returns `None`. -/
theorem C4_witness :
    chartCallCount (Plotting.sns_heatmap rc0 df0 "int").calls = 1 ∧
    showCallCount (Plotting.sns_heatmap rc0 df0 "int").calls = 1 ∧
    (Plotting.sns_heatmap rc0 df0 "int").exn = none ∧
    (Plotting.sns_heatmap rc0 df0 "int").ret = PyVal.pyNone :=
  C4_thm.2.2.2.2.2.2.2 rc0 df0 "int" (Or.inl rfl)

/-- C5: no chart function mutates the caller's data table — after any
call, the caller's dataframe is exactly the dataframe passed in (the
module only ever reads it or hands it to the library). -/
theorem C5_thm :
    (∀ rc df fs, (Plotting.pandas_histogram rc df fs).df = some df) ∧
    (∀ rc df x y s lbl c,
      (Plotting.pandas_scatter_plot rc df x y s lbl c).df = some df) ∧
    (∀ rc df fs, (Plotting.pandas_scatter_matrix rc df fs).df = some df) ∧
    (∀ rc df hue diag, (Plotting.sns_scatter_matrix rc df hue diag).df = some df) ∧
    (∀ rc df x y hue, (Plotting.sns_lineplot rc df x y hue).df = some df) ∧
    (∀ rc df x y hue, (Plotting.sns_boxenplot rc df x y hue).df = some df) ∧
    (∀ rc df x y hue, (Plotting.sns_barplot rc df x y hue).df = some df) ∧
    (∀ rc df dt, (Plotting.sns_heatmap rc df dt).df = some df) := by
  refine ⟨fun _ _ _ => rfl, fun _ _ _ _ _ _ _ => rfl, fun _ _ _ => rfl,
    fun _ _ _ _ => rfl, fun _ _ _ _ _ => rfl, fun _ _ _ _ _ => rfl,
    fun _ _ _ _ _ => rfl, fun rc df dt => ?_⟩
  unfold Plotting.sns_heatmap
  cases Plotting.data_string.lookup dt <;> rfl

/-- C6: no chart function (nor the sinusoidal demo) writes the
process-wide style configuration — after any call it is exactly the
configuration before the call; only `__init__` writes it. -/
theorem C6_thm :
    (∀ rc, (Plotting.plot_colored_sinusoidal_lines rc).rc = rc) ∧
    (∀ rc df fs, (Plotting.pandas_histogram rc df fs).rc = rc) ∧
    (∀ rc df x y s lbl c,
      (Plotting.pandas_scatter_plot rc df x y s lbl c).rc = rc) ∧
    (∀ rc df fs, (Plotting.pandas_scatter_matrix rc df fs).rc = rc) ∧
    (∀ rc df hue diag, (Plotting.sns_scatter_matrix rc df hue diag).rc = rc) ∧
    (∀ rc df x y hue, (Plotting.sns_lineplot rc df x y hue).rc = rc) ∧
    (∀ rc df x y hue, (Plotting.sns_boxenplot rc df x y hue).rc = rc) ∧
    (∀ rc df x y hue, (Plotting.sns_barplot rc df x y hue).rc = rc) ∧
    (∀ rc df dt, (Plotting.sns_heatmap rc df dt).rc = rc) := by
  refine ⟨fun _ => rfl, fun _ _ _ => rfl, fun _ _ _ _ _ _ _ => rfl,
    fun _ _ _ => rfl, fun _ _ _ _ => rfl, fun _ _ _ _ _ => rfl,
    fun _ _ _ _ _ => rfl, fun _ _ _ _ _ => rfl, fun rc df dt => ?_⟩
  unfold Plotting.sns_heatmap
  cases Plotting.data_string.lookup dt <;> rfl

/-- C7: the style initializer sets the documented constants into the
process-wide configuration, whatever it was before: sans-serif font
(CMU Sans Serif) at size 14, title/label size 18, tick label size 12,
line width 3.0, axes line width 0.8 with edge color `0.25`, and the
`cm` math-text font set; it is a total function (no error). -/
theorem C7_thm : ∀ rc : RcParams,
    (Plotting.init rc).font_family = "sans-serif" ∧
    (Plotting.init rc).font_sans_serif = ["CMU Sans Serif"] ∧
    (Plotting.init rc).font_size = 14 ∧
    (Plotting.init rc).axes_titlesize = 18 ∧
    (Plotting.init rc).axes_labelsize = 18 ∧
    (Plotting.init rc).xtick_labelsize = 12 ∧
    (Plotting.init rc).ytick_labelsize = 12 ∧
    (Plotting.init rc).lines_linewidth = 3.0 ∧
    (Plotting.init rc).axes_linewidth = 0.8 ∧
    (Plotting.init rc).axes_edgecolor = "0.25" ∧
    (Plotting.init rc).mathtext_fontset = "cm" :=
  fun _ => ⟨rfl, rfl, rfl, rfl, rfl, rfl, rfl, rfl, rfl, rfl, rfl⟩

/-- C8: the fixed cosmetic choices forwarded to the library:
`pandas_scatter_plot` always passes `alpha=0.4` and the `viridis`
colormap; `pandas_histogram` always passes `bins=50` and defaults to
figure size `(20,20)`; `pandas_scatter_matrix` defaults to figure size
`(12,12)` with `kde` diagonals; `sns_scatter_matrix` always passes the
`viridis` palette with subplot height `2.5`. -/
theorem C8_thm :
    (∀ rc df x y s lbl c,
      (Plotting.pandas_scatter_plot rc df x y s lbl c).calls =
        [LibCall.dfPlotScatter df x y 0.4 s lbl c "viridis" true,
         LibCall.pltShow]) ∧
    (∀ rc df,
      (Plotting.pandas_histogram rc df).calls =
        [LibCall.dfHist df 50 (20, 20), LibCall.pltShow]) ∧
    (∀ rc df fs,
      (Plotting.pandas_histogram rc df fs).calls =
        [LibCall.dfHist df 50 fs, LibCall.pltShow]) ∧
    (∀ rc df,
      (Plotting.pandas_scatter_matrix rc df).calls =
        [LibCall.pdScatterMatrix df (12, 12) "kde", LibCall.pltShow]) ∧
    (∀ rc df hue diag,
      (Plotting.sns_scatter_matrix rc df hue diag).calls =
        [LibCall.snsPairplot df hue "viridis" "scatter" diag 2.5,
         LibCall.pltShow]) :=
  ⟨fun _ _ _ _ _ _ _ => rfl, fun _ _ => rfl, fun _ _ _ => rfl,
   fun _ _ => rfl, fun _ _ _ _ => rfl⟩

/-- C9: `sns_heatmap` maps `data_type = "int"` to the annotation format
`d` and `"float"` to `0.1f`, forwarding it in the single `sns.heatmap`
call followed by the render call; for any other `data_type` the module's
own dictionary lookup raises `KeyError` before any charting-library call
is made, so nothing is rendered. -/
theorem C9_thm : ∀ rc df dt,
    (Plotting.sns_heatmap rc df "int").calls =
      [LibCall.snsHeatmap df true 0.5 "d", LibCall.pltShow] ∧
    (Plotting.sns_heatmap rc df "float").calls =
      [LibCall.snsHeatmap df true 0.5 "0.1f", LibCall.pltShow] ∧
    (Plotting.sns_heatmap rc df "int").exn = none ∧
    (Plotting.sns_heatmap rc df "float").exn = none ∧
    (dt ≠ "int" → dt ≠ "float" →
      (Plotting.sns_heatmap rc df dt).exn = some (PyErr.keyError dt) ∧
      (Plotting.sns_heatmap rc df dt).calls = []) := by
  intro rc df dt
  refine ⟨rfl, rfl, rfl, rfl, fun h1 h2 => ?_⟩
  have hbeq1 : (dt == "int") = false := beq_eq_false_iff_ne.mpr h1
  have hbeq2 : (dt == "float") = false := beq_eq_false_iff_ne.mpr h2
  have hlk : Plotting.data_string.lookup dt = none := by
    simp [Plotting.data_string, List.lookup, hbeq1, hbeq2]
  constructor <;> simp [Plotting.sns_heatmap, hlk]

/-- C9, witness: at data_type `"str"` (neither `"int"` nor `"float"`) the
theorem yields the `KeyError` and the empty call trace, and at `"int"` it
yields the `d` format. -/
theorem C9_witness :
    (Plotting.sns_heatmap rc0 df0 "int").calls =
      [LibCall.snsHeatmap df0 true 0.5 "d", LibCall.pltShow] ∧
    (Plotting.sns_heatmap rc0 df0 "str").exn = some (PyErr.keyError "str") ∧
    (Plotting.sns_heatmap rc0 df0 "str").calls = [] :=
  ⟨(C9_thm rc0 df0 "str").1,
   ((C9_thm rc0 df0 "str").2.2.2.2 (by decide) (by decide)).1,
   ((C9_thm rc0 df0 "str").2.2.2.2 (by decide) (by decide)).2⟩

/-- C10: `plot_colored_sinusoidal_lines` draws exactly one sine curve per
color of the active style's color cycle, with phase shifts evenly spaced
over `[0, 2*pi)` starting at `0` with the endpoint excluded (in units of
`L = 2*pi`: shift `i` is `i/n`), and issues exactly one `plt.xlim` call
whose bounds are the first and last sample points of the abscissa grid,
namely `0` and `2*pi` (in units: `0` and `1`). -/
theorem C10_thm : ∀ rc : RcParams,
    (sinShifts (Plotting.plot_colored_sinusoidal_lines rc).calls).length =
      rc.axes_prop_cycle.length ∧
    sinShifts (Plotting.plot_colored_sinusoidal_lines rc).calls =
      (List.range rc.axes_prop_cycle.length).map
        (fun i : ℕ => (i : ℚ) / rc.axes_prop_cycle.length) ∧
    xlimCalls (Plotting.plot_colored_sinusoidal_lines rc).calls =
      [((Plotting.np_linspace 0 1).headD 0,
        (Plotting.np_linspace 0 1).getLastD 0)] ∧
    (Plotting.np_linspace 0 1).headD 0 = 0 ∧
    (Plotting.np_linspace 0 1).getLastD 0 = 1 := by
  intro rc
  have hs : sinShifts (Plotting.plot_colored_sinusoidal_lines rc).calls =
      Plotting.np_linspace 0 1 rc.axes_prop_cycle.length false := by
    simp [Plotting.plot_colored_sinusoidal_lines, sinShifts,
      List.filterMap_append, List.filterMap_map, Function.comp_def,
      List.filterMap_some]
  refine ⟨?_, ?_, ?_, Plotting.np_linspace_headD, Plotting.np_linspace_getLastD⟩
  · rw [hs, Plotting.np_linspace_no_endpoint]
    simp
  · rw [hs, Plotting.np_linspace_no_endpoint]
  · simp [Plotting.plot_colored_sinusoidal_lines, xlimCalls,
      List.filterMap_append, List.filterMap_map, Function.comp]
